import Mathlib

/-!
Verification development for the CreatorCover repository.

The repository is a browser app that orchestrates calls to a remote
generative-AI service (`src/services/geminiService.ts`) from a React
component (`src/components/CoverCanvas.tsx`, which also contains the
App component with `startProcess`, `handleEditImage`, ...).

Shallow embedding conventions:
  * Remote calls, the host authorization surface (`window.aistudio`) and
    the platform JSON parser are opaque collaborators; their behaviour in
    one run is passed in as explicit environment values / oracle functions.
  * Side effects that the claims talk about (invocations of
    `ensureApiKey`, of the key-selection UI, remote attempts, alerts) are
    logged as an explicit event list returned next to the result.
  * JavaScript `throw`/rejection is `Except.error`; a computation that can
    poll forever returns `Option` (`none` = the polling loop never ends).
  * JavaScript string falsiness (`s || d` is `d` for `""`/`undefined`) is
    modelled by `jsOrStr` on `Option String`.
-/

/-- Checks whether the first list is a leading segment of the second. -/
def subAt : List Char → List Char → Bool
  | [], _ => true
  | _ :: _, [] => false
  | c :: cs, d :: ds => c == d && subAt cs ds

/-- Checks whether `needle` occurs contiguously inside the second list. -/
def hasSubList (needle : List Char) : List Char → Bool
  | [] => subAt needle []
  | c :: cs => subAt needle (c :: cs) || hasSubList needle cs

/-- `strHasSub hay needle` models JavaScript `hay.includes(needle)`. -/
def strHasSub (hay needle : String) : Bool :=
  hasSubList needle.toList hay.toList

/-- Models the JavaScript expression `s || d` where `s : string | undefined`
and `d` is a string default: `undefined` and `""` are falsy. -/
def jsOrStr (s : Option String) (d : String) : String :=
  match s with
  | none => d
  | some t => if t = "" then d else t

/-- JavaScript truthiness of a `string | null | undefined` value. -/
def jsTruthyOpt (o : Option String) : Bool :=
  match o with
  | none => false
  | some s => !(s == "")

/-- A thrown JavaScript error as observed by the catch blocks of
`geminiService.ts`: its `message` and optional numeric `status`. -/
structure RemoteErr where
  message : String
  status : Option Nat
deriving DecidableEq, Repr

/-- The permission-denial test used in `generateSingleImage` (line 159) and
in `generateVeoVideo` (line 258):
`error.message?.includes('403') || error.status === 403 ||
 error.message?.includes('PERMISSION_DENIED')`. -/
def is403 (e : RemoteErr) : Bool :=
  strHasSub e.message "403" || e.status == some 403 ||
    strHasSub e.message "PERMISSION_DENIED"

/-- The shape of the optional `window.aistudio` host authorization surface:
whether the object is present, whether each of its two methods is present,
and what `hasSelectedApiKey()` would return. -/
structure Host where
  aistudioPresent : Bool
  hasSelectedApiKeyPresent : Bool
  hasSelectedApiKeyResult : Bool
  openSelectKeyPresent : Bool
deriving DecidableEq, Repr, Fintype

/-- Observable events logged by the embedded operations. -/
inductive Ev where
  | ensureKey (force : Bool)
  | selectKeyUI
  | imageAttempt
  | videoAttempt
  | editAttempt
  | researchCall
  | textCall
  | imagesCall
  | editCall
  | alert (msg : String)
deriving DecidableEq, Repr

/-- `ensureApiKey` (geminiService.ts lines 8-21), as the list of events it
produces.  The head marks the invocation itself (with its `force`
argument); `Ev.selectKeyUI` marks an invocation of
`win.aistudio.openSelectKey()`. -/
def ensureApiKeyEv (host : Host) (force : Bool) : List Ev :=
  Ev.ensureKey force ::
    (if host.aistudioPresent then
      -- hasKey := aistudio.hasSelectedApiKey ? await aistudio.hasSelectedApiKey() : false
      let hasKey := host.hasSelectedApiKeyPresent && host.hasSelectedApiKeyResult
      if force || !hasKey then
        if host.openSelectKeyPresent then [Ev.selectKeyUI] else []
      else []
    else [])

/-- Recognizes a forced re-authorization event `ensureApiKey(true)`. -/
def isForcedEnsure : Ev → Bool
  | Ev.ensureKey true => true
  | _ => false

/-- Recognizes a single image-generation attempt. -/
def isImgAttempt : Ev → Bool
  | Ev.imageAttempt => true
  | _ => false

/-- Recognizes a single video-generation attempt. -/
def isVideoAttempt : Ev → Bool
  | Ev.videoAttempt => true
  | _ => false

/-- One part of a remote `generateContent` response candidate: either an
inline image payload or plain text. -/
inductive RespPart where
  | inlineData (data : String)
  | textPart (t : String)
deriving DecidableEq, Repr

/-- The `for (const part of ... parts || [])` scan that returns the first
inline-data payload, used by `generateSingleImage` and `editCoverImage`. -/
def firstInline : List RespPart → Option String
  | [] => none
  | RespPart.inlineData d :: _ => some d
  | RespPart.textPart _ :: ps => firstInline ps

/-- Outcome of one remote `generateContent` call: a response with its list
of parts (empty list also covers an absent candidate/content), or a
rejection. -/
inductive AttemptResult where
  | resp (parts : List RespPart)
  | thrown (e : RemoteErr)
deriving DecidableEq, Repr

/-- The body of one image-generation attempt in `generateSingleImage`
(lines 138-156): scan the parts for inline data and wrap it in a data URL;
if none is found, `throw new Error("No image generated in this attempt")`;
a rejected remote call is the thrown error itself. -/
def attemptImage : AttemptResult → Except RemoteErr String
  | AttemptResult.thrown e => Except.error e
  | AttemptResult.resp parts =>
    match firstInline parts with
    | some d => Except.ok ("data:image/png;base64," ++ d)
    | none => Except.error ⟨"No image generated in this attempt", none⟩

/-- `generateSingleImage(prompt, retry)` (geminiService.ts lines 135-166).
`aNow` is the outcome of the attempt this call makes, `aNext` the outcome
of the attempt the retry would make.  On a 403-classified failure with
`retry` true it runs `ensureApiKey(true)` and retries once with `retry`
false. -/
def singleImageCall (host : Host) :
    Bool → AttemptResult → AttemptResult → Except RemoteErr String × List Ev
  | false, aNow, _ => (attemptImage aNow, [Ev.imageAttempt])
  | true, aNow, aNext =>
    match attemptImage aNow with
    | Except.ok s => (Except.ok s, [Ev.imageAttempt])
    | Except.error e =>
      if is403 e then
        let r := singleImageCall host false aNext aNext
        (r.1, Ev.imageAttempt :: (ensureApiKeyEv host true ++ r.2))
      else (Except.error e, [Ev.imageAttempt])
termination_by b _ _ => b.toNat
decreasing_by decide

/-- `generateCoverImages(prompt)` (geminiService.ts lines 168-182):
`ensureApiKey()` then three parallel `generateSingleImage(prompt, true)`
calls joined by `Promise.all`; on success the three results in order.
`Promise.all` rejects with the reason of the first promise to reject in
time; the embedding picks the lowest-index failure (the claims only
depend on whether the batch fails, not on which reason is chosen).
The outer catch only logs and rethrows. -/
def generateCoverImages (host : Host)
    (a1 b1 a2 b2 a3 b3 : AttemptResult) :
    Except RemoteErr (List String) × List Ev :=
  let pre := ensureApiKeyEv host false
  let r1 := singleImageCall host true a1 b1
  let r2 := singleImageCall host true a2 b2
  let r3 := singleImageCall host true a3 b3
  let evs := pre ++ r1.2 ++ r2.2 ++ r3.2
  match r1.1, r2.1, r3.1 with
  | Except.ok i1, Except.ok i2, Except.ok i3 => (Except.ok [i1, i2, i3], evs)
  | Except.error e, _, _ => (Except.error e, evs)
  | _, Except.error e, _ => (Except.error e, evs)
  | _, _, Except.error e => (Except.error e, evs)

/-- `editCoverImage(imageBase64, instruction)` (geminiService.ts lines
184-215): a single remote edit call; first inline part wrapped as a data
URL, else `throw new Error("No edited image returned")`; the catch only
logs and rethrows.  No `ensureApiKey`, no retry. -/
def editCoverImage (att : AttemptResult) : Except RemoteErr String × List Ev :=
  match att with
  | AttemptResult.thrown e => (Except.error e, [Ev.editAttempt])
  | AttemptResult.resp parts =>
    match firstInline parts with
    | some d => (Except.ok ("data:image/png;base64," ++ d), [Ev.editAttempt])
    | none => (Except.error ⟨"No edited image returned", none⟩, [Ev.editAttempt])

/-- The state of a video-generation operation as observed by the polling
loop of `generateVeoVideo`: its `done` flag and the result URI
`operation.response?.generatedVideos?.[0]?.video?.uri` (absent levels
collapse to `none`). -/
structure VideoOp where
  done : Bool
  uri : Option String
deriving DecidableEq, Repr

/-- Environment of one attempt of `generateVeoVideo`'s inner `generate`:
the outcome of `ai.models.generateVideos`, the successive operations
returned by `ai.operations.getVideosOperation`, and the HTTP status /
status text of the final authenticated fetch plus the object URL the
browser would mint for the downloaded blob. -/
structure VeoEnv where
  genResult : Except RemoteErr VideoOp
  polls : List VideoOp
  fetchStatus : Nat
  fetchStatusText : String
  objectUrl : String
deriving Repr

/-- The `while (!operation.done)` polling loop (geminiService.ts lines
240-243), consuming the environment's list of poll responses; `none`
means the code would poll forever (the list was exhausted with no
operation marked done). -/
def pollLoop (op : VideoOp) (ps : List VideoOp) : Option VideoOp :=
  if op.done then some op
  else
    match ps with
    | [] => none
    | p :: rest => pollLoop p rest

/-- The body of one attempt of `generateVeoVideo`'s `generate` (lines
224-255): submit the job, poll until done, require a URI
(`throw new Error("Video generation failed to return URI")` otherwise),
then fetch the bytes — a 403 fetch status becomes
`throw new Error("PERMISSION_DENIED")`, any other non-ok status becomes
a fetch-failed error, and an ok status yields the object URL. -/
def veoAttempt (env : VeoEnv) : Option (Except RemoteErr String) :=
  match env.genResult with
  | Except.error e => some (Except.error e)
  | Except.ok op0 =>
    match pollLoop op0 env.polls with
    | none => none
    | some opDone =>
      match opDone.uri with
      | none => some (Except.error ⟨"Video generation failed to return URI", none⟩)
      | some _ =>
        if 200 ≤ env.fetchStatus ∧ env.fetchStatus < 300 then
          some (Except.ok env.objectUrl)
        else if env.fetchStatus = 403 then
          some (Except.error ⟨"PERMISSION_DENIED", none⟩)
        else
          some (Except.error ⟨"Video fetch failed: " ++ env.fetchStatusText, none⟩)

/-- The inner `generate(retry)` of `generateVeoVideo` (lines 220-265):
on a 403-classified failure with `retry` true, `ensureApiKey(true)` then
one retry with `retry` false; any other failure (or a second failure)
is rethrown. -/
def veoGenerate (host : Host) :
    Bool → VeoEnv → VeoEnv → Option (Except RemoteErr String) × List Ev
  | false, envNow, _ => (veoAttempt envNow, [Ev.videoAttempt])
  | true, envNow, envNext =>
    match veoAttempt envNow with
    | some (Except.error e) =>
      if is403 e then
        let r := veoGenerate host false envNext envNext
        (r.1, Ev.videoAttempt :: (ensureApiKeyEv host true ++ r.2))
      else (some (Except.error e), [Ev.videoAttempt])
    | other => (other, [Ev.videoAttempt])
termination_by b _ _ => b.toNat
decreasing_by decide

/-- `generateVeoVideo(imageBase64, prompt)` (geminiService.ts lines
217-273): `ensureApiKey()` then `generate(true)`; the outer catch only
logs and rethrows. -/
def generateVeoVideo (host : Host) (env1 env2 : VeoEnv) :
    Option (Except RemoteErr String) × List Ev :=
  let pre := ensureApiKeyEv host false
  let r := veoGenerate host true env1 env2
  (r.1, pre ++ r.2)

/-- A reference book entry produced by the research call
(title/author/visualHook per the response schema in `researchTrends`). -/
structure RefEntry where
  title : String
  author : String
  visualHook : String
deriving DecidableEq, Repr

/-- A grounding source link `{uri, title}` extracted from
`groundingMetadata.groundingChunks[..].web`. -/
structure SourceLink where
  uri : String
  title : String
deriving DecidableEq, Repr

/-- One grounding chunk: its optional `web` field. -/
structure Chunk where
  web : Option SourceLink
deriving DecidableEq, Repr

/-- `GroundingData` as constructed by `researchTrends` and consumed by the
App component (fields reconstructed from their uses; the type itself
lives in the repository's `types.ts`, not under `src/`). -/
structure GroundingData where
  trends : String
  references : List RefEntry
  sources : List SourceLink
deriving DecidableEq, Repr

/-- The JSON object shape `researchTrends` reads out of the parsed
response text: optional `trends` and `references` fields. -/
structure TrendsJson where
  trends : Option String
  references : Option (List RefEntry)
deriving DecidableEq, Repr

/-- The remote response observed by `researchTrends`: its `text` and the
grounding chunks `response.candidates?.[0]?.groundingMetadata?.
groundingChunks` (`none` when any level is absent). -/
structure ResearchResp where
  text : Option String
  chunks : Option (List Chunk)
deriving DecidableEq, Repr

/-- The substitute string parsed when the response text is empty/absent:
`response.text || '\x7b"trends": "", "references": []\x7d'`. -/
def defaultResearchJson : String := "\x7b\"trends\": \"\", \"references\": []\x7d"

/-- The degraded result returned by the catch block of `researchTrends`
(lines 90-97). -/
def researchFallback : GroundingData :=
  { trends := "Unable to fetch live trends. Using general design principles.",
    references := [],
    sources := [] }

/-- `researchTrends` (geminiService.ts lines 23-98).  `env` is the remote
call's outcome; `parse` is the platform JSON parser specialised to the
expected object shape (`none` = `JSON.parse` throws).  Both a rejected
remote call and a parse failure are caught by the single catch block and
replaced by `researchFallback`; on success, falsy `trends` falls back to
`"Analysis complete."`, absent `references` to `[]`, and sources are the
chunks' `web` entries (`.map(...).filter(Boolean)`). -/
def researchTrends (env : Except RemoteErr ResearchResp)
    (parse : String → Option TrendsJson) : GroundingData :=
  match env with
  | Except.error _ => researchFallback
  | Except.ok resp =>
    match parse (jsOrStr resp.text defaultResearchJson) with
    | none => researchFallback
    | some data =>
      { trends := jsOrStr data.trends "Analysis complete.",
        references := data.references.getD [],
        sources := (resp.chunks.getD []).filterMap (fun c => c.web) }

/-- The parsed `{title?, subtitle?, description?}` object produced by
`generateBookText` (typed `Partial<BookMetadata>` in the source, with
exactly these three keys fixed by the request's response schema). -/
structure BookTextObj where
  title : Option String
  subtitle : Option String
  description : Option String
deriving DecidableEq, Repr

/-- The fixed placeholder returned when `generateBookText`'s JSON parse
throws (geminiService.ts line 130). -/
def placeholderText : BookTextObj :=
  { title := some "Untitled", subtitle := some "", description := some "" }

/-- `generateBookText` (geminiService.ts lines 100-132).  The remote call
is outside the try block, so its rejection propagates; the try block
parses `response.text || "\x7b\x7d"` and the catch returns the fixed
placeholder object. -/
def generateBookText (env : Except RemoteErr (Option String))
    (parse : String → Option BookTextObj) : Except RemoteErr BookTextObj :=
  match env with
  | Except.error e => Except.error e
  | Except.ok text =>
    match parse (jsOrStr text "\x7b\x7d") with
    | some j => Except.ok j
    | none => Except.ok placeholderText

/-- `BookMetadata` as initialised in the App component (CoverCanvas.tsx
bundle, `useState<BookMetadata>` initial value): the eight string fields.
The type itself lives in the repository's `types.ts`, not under `src/`;
its fields are reconstructed from that initialiser and the spec's data
model. -/
structure BookMetadata where
  amazonMarketplace : String
  category : String
  targetMarket : String
  topic : String
  author : String
  title : String
  subtitle : String
  description : String
deriving DecidableEq, Repr

/-- The four pipeline stages `AppStep.DETAILS/RESEARCH/GENERATION/VIDEO`
(used by name in the App component; declared in `types.ts`). -/
inductive AppStep where
  | details
  | research
  | generation
  | video
deriving DecidableEq, Repr

/-- The localized UI strings the orchestrator uses (a row of the
`TRANSLATIONS` table in `types.ts`, reconstructed from its uses). -/
structure Translations where
  analyzing : String
  crafting : String
  painting : String
  applyingEdits : String
  errorKey : String
  errorEdit : String
deriving DecidableEq, Repr

/-- The client session state of the App component: one field per
`useState` hook that the orchestrator touches. -/
structure AppState where
  step : AppStep
  isLoading : Bool
  statusMessage : String
  metadata : BookMetadata
  groundingData : Option GroundingData
  generatedImages : List String
  coverImage : Option String
  videoUrl : Option String
  editPrompt : String
  videoPrompt : String
deriving DecidableEq, Repr

/-- The merge `setMetadata(prev => (\x7b...prev, ...textData\x7d))` in
`startProcess`: object spread overrides exactly the fields present in
the parsed text-generation result. -/
def mergeText (m : BookMetadata) (td : BookTextObj) : BookMetadata :=
  { m with
    title := td.title.getD m.title,
    subtitle := td.subtitle.getD m.subtitle,
    description := td.description.getD m.description }

/-- The hard-coded validation alert of `startProcess`. -/
def validationMsg : String := "Please enter a topic and author name."

/-- `startProcess` (App component in the CoverCanvas.tsx bundle, lines
126-184).  The outcomes of the three service calls are passed in:
`researchOut` (total — `researchTrends` never rejects, see
`researchTrends`), `textOut` for `generateBookText`, `imagesOut` for
`generateCoverImages`.  Returns the final session state together with the
event log (service calls made and alerts shown).  The interpolated
status-message texts are abbreviated to their translation-table bases;
every post-validation path ends with the `finally` block clearing
`isLoading` and `statusMessage`. -/
def startProcess (t : Translations) (st : AppState)
    (researchOut : GroundingData)
    (textOut : Except RemoteErr BookTextObj)
    (imagesOut : Except RemoteErr (List String)) : AppState × List Ev :=
  if st.metadata.topic = "" ∨ st.metadata.author = "" then
    (st, [Ev.alert validationMsg])
  else
    let stR := { st with
      step := AppStep.research
      isLoading := true
      statusMessage := t.analyzing }
    let stG := { stR with groundingData := some researchOut }
    let stT := { stG with statusMessage := t.crafting }
    match textOut with
    | Except.error _ =>
        ({ stT with isLoading := false, statusMessage := "" },
         [Ev.researchCall, Ev.textCall, Ev.alert t.errorKey])
    | Except.ok td =>
      let stM := { stT with
        metadata := mergeText stT.metadata td
        statusMessage := t.painting }
      match imagesOut with
      | Except.error _ =>
          ({ stM with isLoading := false, statusMessage := "" },
           [Ev.researchCall, Ev.textCall, Ev.imagesCall, Ev.alert t.errorKey])
      | Except.ok images =>
          ({ stM with
             generatedImages := images
             coverImage := images.head?
             step := AppStep.generation
             isLoading := false
             statusMessage := "" },
           [Ev.researchCall, Ev.textCall, Ev.imagesCall])

/-- `handleEditImage` (App component, lines 186-200).  `editOut` is the
outcome of `editCoverImage`.  The guard `if (!coverImage || !editPrompt)
return;` uses JavaScript truthiness; on success the selected image is
replaced and the instruction cleared; on failure an alert is shown; the
`finally` block clears `isLoading` and `statusMessage`. -/
def handleEditImage (t : Translations) (st : AppState)
    (editOut : Except RemoteErr String) : AppState × List Ev :=
  if !(jsTruthyOpt st.coverImage) || st.editPrompt = "" then
    (st, [])
  else
    match editOut with
    | Except.ok newImage =>
        ({ st with
           coverImage := some newImage
           editPrompt := ""
           isLoading := false
           statusMessage := "" }, [Ev.editCall])
    | Except.error _ =>
        ({ st with isLoading := false, statusMessage := "" },
         [Ev.editCall, Ev.alert t.errorEdit])

/-- Concrete host fixture: authorization surface fully present, key
selected. -/
def sampleHost : Host := ⟨true, true, true, true⟩

/-- Concrete translation-table row fixture. -/
def sampleTrans : Translations :=
  ⟨"Analyzing", "Crafting", "Painting", "Applying edits", "Generic error", "Edit error"⟩

/-- Concrete metadata fixture (the spec's example inputs). -/
def sampleMeta : BookMetadata :=
  ⟨"IT", "Self-Help", "stoicism", "stoic philosophy for beginners", "J. Doe", "", "", ""⟩

/-- Concrete initial session-state fixture. -/
def sampleState : AppState :=
  ⟨AppStep.details, false, "", sampleMeta, none, [], none, none, "", ""⟩

/-- Session-state fixture with an empty topic (fails validation). -/
def sampleStateEmptyTopic : AppState :=
  { sampleState with metadata := { sampleMeta with topic := "" } }

/-- Session-state fixture holding a selected cover image and a pending
edit instruction. -/
def sampleStateEdit : AppState :=
  { sampleState with coverImage := some "data:image/png;base64,X", editPrompt := "make it blue" }

/-- Concrete grounding-data fixture. -/
def sampleGrounding : GroundingData := ⟨"Minimal trends", [], []⟩

/-- Concrete parsed text-generation fixture. -/
def sampleTd : BookTextObj := ⟨some "The Stoic Path", some "Sub", some "Desc"⟩

/-- Successful image attempts yielding payloads A, B, C. -/
def attA : AttemptResult := AttemptResult.resp [RespPart.inlineData "A"]

/-- See `attA`. -/
def attB : AttemptResult := AttemptResult.resp [RespPart.inlineData "B"]

/-- See `attA`. -/
def attC : AttemptResult := AttemptResult.resp [RespPart.inlineData "C"]

/-- The image list `generateCoverImages` produces from `attA/attB/attC`. -/
def sampleImgs : List String :=
  ["data:image/png;base64,A", "data:image/png;base64,B", "data:image/png;base64,C"]

/-- A 403-classified error fixture. -/
def err403 : RemoteErr := ⟨"PERMISSION_DENIED", none⟩

/-- A non-permission error fixture. -/
def errOther : RemoteErr := ⟨"boom", none⟩

/-- An attempt that rejects with `err403`. -/
def thrown403 : AttemptResult := AttemptResult.thrown err403

/-- A video-attempt environment whose job submission rejects with
`err403`. -/
def veo403 : VeoEnv := ⟨Except.error err403, [], 200, "OK", "blob:ok"⟩

/-- The JSON oracle fixture: parses exactly `"\x7b\x7d"` to the empty
object and fails on everything else. -/
def parseEmptyOnly : String → Option BookTextObj :=
  fun s => if s = "\x7b\x7d" then some ⟨none, none, none⟩ else none

theorem jsOrStr_ne_empty (s : Option String) (d : String) (hd : d ≠ "") :
    jsOrStr s d ≠ "" := by
  cases s with
  | none => simpa [jsOrStr] using hd
  | some t =>
    by_cases ht : t = "" <;> simp [jsOrStr, ht, hd]

theorem ensureApiKeyEv_countP_forced (host : Host) (force : Bool) :
    (ensureApiKeyEv host force).countP isForcedEnsure =
      (if force then 1 else 0) := by
  revert host force
  decide

theorem ensureApiKeyEv_countP_img (host : Host) (force : Bool) :
    (ensureApiKeyEv host force).countP isImgAttempt = 0 := by
  revert host force
  decide

theorem ensureApiKeyEv_countP_video (host : Host) (force : Bool) :
    (ensureApiKeyEv host force).countP isVideoAttempt = 0 := by
  revert host force
  decide

theorem generateCoverImages_ok_length (host : Host)
    (a1 b1 a2 b2 a3 b3 : AttemptResult) (l : List String)
    (h : (generateCoverImages host a1 b1 a2 b2 a3 b3).1 = Except.ok l) :
    l.length = 3 := by
  unfold generateCoverImages at h
  rcases h1 : (singleImageCall host true a1 b1).1 with e1 | i1 <;>
    rcases h2 : (singleImageCall host true a2 b2).1 with e2 | i2 <;>
      rcases h3 : (singleImageCall host true a3 b3).1 with e3 | i3 <;>
        simp [h1, h2, h3] at h
  subst h
  rfl

/-- C4: For every input and every behaviour of the remote call (including
any thrown error), `researchTrends` returns a well-formed `GroundingData`
value — its trends text is never empty — and never propagates a failure
to the caller (the embedded function is total, mirroring the catch-all
block); in the failure case (the remote call rejected, or the response
text failed JSON parsing) the result is the degraded value with empty
references, empty sources, and a non-empty generic trends text. -/
theorem c4_research_never_fails (env : Except RemoteErr ResearchResp)
    (parse : String → Option TrendsJson) :
    (researchTrends env parse).trends ≠ "" ∧
    (∀ e, env = Except.error e → researchTrends env parse = researchFallback) ∧
    (∀ resp, env = Except.ok resp →
      parse (jsOrStr resp.text defaultResearchJson) = none →
      researchTrends env parse = researchFallback) ∧
    researchFallback.references = [] ∧
    researchFallback.sources = [] ∧
    researchFallback.trends ≠ "" := by
  refine ⟨?_, ?_, ?_, rfl, rfl, by simp [researchFallback]⟩
  · cases env with
    | error e => simp [researchTrends, researchFallback]
    | ok resp =>
      rcases hp : parse (jsOrStr resp.text defaultResearchJson) with _ | data
      · simp [researchTrends, hp, researchFallback]
      · simp only [researchTrends, hp]
        exact jsOrStr_ne_empty _ _ (by simp)
  · rintro e rfl
    simp [researchTrends]
  · rintro resp rfl hp
    simp [researchTrends, hp]

/-- C4 witness: at a rejecting remote call and an always-failing parser,
the result is the degraded value, whose trends text is non-empty. -/
theorem c4_research_never_fails_witness :
    researchTrends (Except.error errOther) (fun _ => none) = researchFallback ∧
    researchFallback.references = [] ∧
    researchFallback.sources = [] ∧
    researchFallback.trends ≠ "" := by
  have h := c4_research_never_fails (Except.error errOther) (fun _ => none)
  exact ⟨h.2.1 errOther rfl, h.2.2.2.1, h.2.2.2.2.1, h.2.2.2.2.2⟩

/-- C5: For every remote response whose (non-empty) text content fails
JSON parsing, `generateBookText` returns the fixed placeholder object
`{title: "Untitled", subtitle: "", description: ""}` as a successful
result rather than failing the caller.  (An empty/absent text is replaced
by the substitute string before parsing — that case is claim C10.) -/
theorem c5_unparsable_placeholder (parse : String → Option BookTextObj)
    (s : String) (hs : s ≠ "") (hp : parse s = none) :
    generateBookText (Except.ok (some s)) parse = Except.ok placeholderText := by
  simp [generateBookText, jsOrStr, hs, hp]

/-- C5 witness: a concrete unparsable text with an always-failing parser
yields the placeholder. -/
theorem c5_unparsable_placeholder_witness :
    generateBookText (Except.ok (some "garbage")) (fun _ => none) =
      Except.ok placeholderText :=
  c5_unparsable_placeholder (fun _ => none) "garbage" (by simp) rfl

/-- C10: For every remote response whose text content is empty or absent,
`generateBookText` parses the substitute string `"\x7b\x7d"` and therefore
(given that the JSON parser maps `"\x7b\x7d"` to the empty object) returns
the empty object — no title, subtitle, or description fields — which is
not the fixed placeholder; and whenever the parse of the substituted text
succeeds, its result is returned directly, so the placeholder arises only
from a parse failure. -/
theorem c10_empty_text_empty_object (parse : String → Option BookTextObj)
    (hp : parse "\x7b\x7d" = some ⟨none, none, none⟩) :
    generateBookText (Except.ok none) parse = Except.ok ⟨none, none, none⟩ ∧
    generateBookText (Except.ok (some "")) parse = Except.ok ⟨none, none, none⟩ ∧
    (⟨none, none, none⟩ : BookTextObj) ≠ placeholderText ∧
    (∀ (s : Option String) (j : BookTextObj),
      parse (jsOrStr s "\x7b\x7d") = some j →
      generateBookText (Except.ok s) parse = Except.ok j) := by
  refine ⟨?_, ?_, by simp [placeholderText], ?_⟩
  · simp [generateBookText, jsOrStr, hp]
  · simp [generateBookText, jsOrStr, hp]
  · intro s j hj
    simp [generateBookText, hj]

/-- C10 witness: with the oracle that parses exactly `"\x7b\x7d"`, both an
absent and an empty text yield the empty object. -/
theorem c10_empty_text_empty_object_witness :
    generateBookText (Except.ok none) parseEmptyOnly =
      Except.ok ⟨none, none, none⟩ ∧
    generateBookText (Except.ok (some "")) parseEmptyOnly =
      Except.ok ⟨none, none, none⟩ := by
  have h := c10_empty_text_empty_object parseEmptyOnly (by simp [parseEmptyOnly])
  exact ⟨h.1, h.2.1⟩

/-- C7: For every call to `ensureApiKey`: if no host authorization surface
is present (`window.aistudio` absent), the call completes without invoking
the key-selection UI; if the surface is present (object and both methods),
the key-selection UI is invoked if and only if `force` is true or no key
is currently selected. -/
theorem c7_ensure_api_key :
    ∀ (host : Host) (force : Bool),
      (host.aistudioPresent = false →
        ensureApiKeyEv host force = [Ev.ensureKey force]) ∧
      (host.aistudioPresent = true → host.hasSelectedApiKeyPresent = true →
        host.openSelectKeyPresent = true →
        (Ev.selectKeyUI ∈ ensureApiKeyEv host force ↔
          (force = true ∨ host.hasSelectedApiKeyResult = false))) := by
  intro host force
  obtain ⟨a, b, c, d⟩ := host
  constructor
  · intro h
    subst h
    simp [ensureApiKeyEv]
  · intro h1 h2 h3
    subst h1
    subst h2
    subst h3
    cases force <;> cases c <;> simp [ensureApiKeyEv]

/-- C7 witness: with the surface absent the forced call produces no UI
invocation; with the surface present and a key selected, the UI is invoked
exactly when forcing. -/
theorem c7_ensure_api_key_witness :
    ensureApiKeyEv ⟨false, true, true, true⟩ true = [Ev.ensureKey true] ∧
    Ev.selectKeyUI ∈ ensureApiKeyEv ⟨true, true, true, true⟩ true ∧
    Ev.selectKeyUI ∉ ensureApiKeyEv ⟨true, true, true, true⟩ false := by
  refine ⟨(c7_ensure_api_key ⟨false, true, true, true⟩ true).1 rfl, ?_, ?_⟩
  · exact ((c7_ensure_api_key ⟨true, true, true, true⟩ true).2 rfl rfl rfl).mpr
      (Or.inl rfl)
  · intro hmem
    have h := ((c7_ensure_api_key ⟨true, true, true, true⟩ false).2 rfl rfl rfl).mp hmem
    rcases h with h | h <;> exact Bool.noConfusion h

/-- C8: For every call to `editCoverImage`, the event log is exactly one
edit attempt — no `ensureApiKey` invocation, no key-selection UI, no
retry — and any failure of the underlying remote edit call propagates
directly to the caller (in particular a 403-classified one). -/
theorem c8_edit_no_retry (att : AttemptResult) :
    (editCoverImage att).2 = [Ev.editAttempt] ∧
    (∀ e, att = AttemptResult.thrown e →
      (editCoverImage att).1 = Except.error e) := by
  constructor
  · cases att with
    | thrown e => simp [editCoverImage]
    | resp parts =>
      rcases h : firstInline parts with _ | d <;> simp [editCoverImage, h]
  · rintro e rfl
    simp [editCoverImage]

/-- C8 witness: a 403-classified failure of the edit call propagates
unchanged, with exactly one attempt logged. -/
theorem c8_edit_no_retry_witness :
    (editCoverImage thrown403).2 = [Ev.editAttempt] ∧
    (editCoverImage thrown403).1 = Except.error err403 :=
  ⟨(c8_edit_no_retry thrown403).1, (c8_edit_no_retry thrown403).2 err403 rfl⟩

/-- C2: For every image-generation call (`generateSingleImage` with its
retry budget intact) and every video-generation call (`generateVeoVideo`)
whose underlying remote attempt fails with a 403-classified error, forced
re-authorization (`ensureApiKey(true)`) is invoked exactly once and the
call is retried exactly once (two attempts total); the retry's outcome —
in particular a second 403-classified failure — propagates to the caller
unchanged, with no further re-authorization or retry. -/
theorem c2_retry_once_on_403 :
    (∀ (host : Host) (a1 a2 : AttemptResult) (e1 : RemoteErr),
      attemptImage a1 = Except.error e1 → is403 e1 = true →
      (singleImageCall host true a1 a2).2.countP isForcedEnsure = 1 ∧
      (singleImageCall host true a1 a2).2.countP isImgAttempt = 2 ∧
      (singleImageCall host true a1 a2).1 = attemptImage a2) ∧
    (∀ (host : Host) (env1 env2 : VeoEnv) (e1 : RemoteErr),
      veoAttempt env1 = some (Except.error e1) → is403 e1 = true →
      (generateVeoVideo host env1 env2).2.countP isForcedEnsure = 1 ∧
      (generateVeoVideo host env1 env2).2.countP isVideoAttempt = 2 ∧
      (generateVeoVideo host env1 env2).1 = veoAttempt env2) := by
  constructor
  · intro host a1 a2 e1 h1 h403
    simp [singleImageCall, h1, h403, List.countP_cons, List.countP_append,
      ensureApiKeyEv_countP_forced, ensureApiKeyEv_countP_img,
      isForcedEnsure, isImgAttempt]
  · intro host env1 env2 e1 h1 h403
    simp [generateVeoVideo, veoGenerate, h1, h403, List.countP_cons,
      List.countP_append, ensureApiKeyEv_countP_forced,
      ensureApiKeyEv_countP_video, isForcedEnsure, isVideoAttempt]

/-- C2 witness: with both attempts failing with `PERMISSION_DENIED`, the
image call and the video call each log exactly one forced re-authorization
and two attempts, and the second 403 propagates. -/
theorem c2_retry_once_on_403_witness :
    (singleImageCall sampleHost true thrown403 thrown403).2.countP isForcedEnsure = 1 ∧
    (singleImageCall sampleHost true thrown403 thrown403).2.countP isImgAttempt = 2 ∧
    (singleImageCall sampleHost true thrown403 thrown403).1 = Except.error err403 ∧
    (generateVeoVideo sampleHost veo403 veo403).2.countP isForcedEnsure = 1 ∧
    (generateVeoVideo sampleHost veo403 veo403).2.countP isVideoAttempt = 2 ∧
    (generateVeoVideo sampleHost veo403 veo403).1 = some (Except.error err403) := by
  have h1 := c2_retry_once_on_403.1 sampleHost thrown403 thrown403 err403 rfl
    (by decide)
  have h2 := c2_retry_once_on_403.2 sampleHost veo403 veo403 err403 rfl
    (by decide)
  exact ⟨h1.1, h1.2.1, h1.2.2.trans rfl, h2.1, h2.2.1, h2.2.2.trans rfl⟩

/-- C1: For every run of `startProcess` in which the research step (total
by construction), the text-generation step and the image-generation step
all complete without throwing, the generated-images list is the
image-generation result, which has exactly three elements; the selected
cover image is its first element; the stage is advanced to Generation;
`metadata.author` is unchanged; and `metadata.title` is taken from the
text-generation result (whenever that result carries a title field). -/
theorem c1_successful_run (t : Translations) (st : AppState)
    (g : GroundingData) (td : BookTextObj) (host : Host)
    (a1 b1 a2 b2 a3 b3 : AttemptResult) (imgs : List String)
    (htopic : st.metadata.topic ≠ "") (hauthor : st.metadata.author ≠ "")
    (himgs : (generateCoverImages host a1 b1 a2 b2 a3 b3).1 = Except.ok imgs) :
    imgs.length = 3 ∧
    (startProcess t st g (Except.ok td) (Except.ok imgs)).1.generatedImages = imgs ∧
    (startProcess t st g (Except.ok td) (Except.ok imgs)).1.coverImage = imgs.head? ∧
    (startProcess t st g (Except.ok td) (Except.ok imgs)).1.step = AppStep.generation ∧
    (startProcess t st g (Except.ok td) (Except.ok imgs)).1.metadata.author =
      st.metadata.author ∧
    (∀ ttl, td.title = some ttl →
      (startProcess t st g (Except.ok td) (Except.ok imgs)).1.metadata.title = ttl) := by
  have hlen := generateCoverImages_ok_length host a1 b1 a2 b2 a3 b3 imgs himgs
  refine ⟨hlen, ?_, ?_, ?_, ?_, ?_⟩
  · simp [startProcess, htopic, hauthor]
  · simp [startProcess, htopic, hauthor]
  · simp [startProcess, htopic, hauthor]
  · simp [startProcess, htopic, hauthor, mergeText]
  · intro ttl httl
    simp [startProcess, htopic, hauthor, mergeText, httl]

/-- C1 witness: the spec's example inputs with three successful image
attempts reach the Generation stage with three images, the first selected,
the author unchanged and the title taken from the text result. -/
theorem c1_successful_run_witness :
    (startProcess sampleTrans sampleState sampleGrounding
      (Except.ok sampleTd) (Except.ok sampleImgs)).1.step = AppStep.generation ∧
    (startProcess sampleTrans sampleState sampleGrounding
      (Except.ok sampleTd) (Except.ok sampleImgs)).1.generatedImages = sampleImgs ∧
    sampleImgs.length = 3 ∧
    (startProcess sampleTrans sampleState sampleGrounding
      (Except.ok sampleTd) (Except.ok sampleImgs)).1.coverImage = sampleImgs.head? ∧
    (startProcess sampleTrans sampleState sampleGrounding
      (Except.ok sampleTd) (Except.ok sampleImgs)).1.metadata.author = "J. Doe" ∧
    (startProcess sampleTrans sampleState sampleGrounding
      (Except.ok sampleTd) (Except.ok sampleImgs)).1.metadata.title =
        "The Stoic Path" := by
  have h := c1_successful_run sampleTrans sampleState sampleGrounding sampleTd
    sampleHost attA attA attB attB attC attC sampleImgs
    (by simp [sampleState, sampleMeta]) (by simp [sampleState, sampleMeta])
    (by simp [generateCoverImages, singleImageCall, attA, attB, attC,
      attemptImage, firstInline, sampleImgs])
  exact ⟨h.2.2.2.1, h.2.1, h.1, h.2.2.1, h.2.2.2.2.1.trans rfl,
    h.2.2.2.2.2 "The Stoic Path" rfl⟩

/-- C3: For every call to `startProcess` with an empty topic or an empty
author, the returned session state is exactly the input state (stage,
metadata, grounding data, images, loading flag all unchanged), the event
log contains no service call — only the user-visible validation alert. -/
theorem c3_validation_blocks (t : Translations) (st : AppState)
    (g : GroundingData) (textOut : Except RemoteErr BookTextObj)
    (imagesOut : Except RemoteErr (List String))
    (h : st.metadata.topic = "" ∨ st.metadata.author = "") :
    startProcess t st g textOut imagesOut = (st, [Ev.alert validationMsg]) := by
  unfold startProcess
  rw [if_pos h]

/-- C3 witness: with an empty topic the state is returned unchanged and
only the validation alert is emitted. -/
theorem c3_validation_blocks_witness :
    startProcess sampleTrans sampleStateEmptyTopic sampleGrounding
      (Except.ok sampleTd) (Except.ok sampleImgs) =
      (sampleStateEmptyTopic, [Ev.alert validationMsg]) :=
  c3_validation_blocks sampleTrans sampleStateEmptyTopic sampleGrounding
    (Except.ok sampleTd) (Except.ok sampleImgs)
    (Or.inl (by simp [sampleStateEmptyTopic, sampleMeta]))

/-- C6: For every error thrown during `startProcess`'s chain after
validation passes (the text-generation or the image-generation outcome is
a rejection), the localized generic error message `t.errorKey` is
surfaced, the stage stays at Research (the last stage advanced to, since
Generation is only set after all steps succeed); and on every
post-validation path — success or failure — the loading flag ends cleared
(and the status message reset). -/
theorem c6_error_leaves_stage (t : Translations) (st : AppState)
    (g : GroundingData) (textOut : Except RemoteErr BookTextObj)
    (imagesOut : Except RemoteErr (List String))
    (htopic : st.metadata.topic ≠ "") (hauthor : st.metadata.author ≠ "") :
    (startProcess t st g textOut imagesOut).1.isLoading = false ∧
    (startProcess t st g textOut imagesOut).1.statusMessage = "" ∧
    (∀ e, textOut = Except.error e →
      (startProcess t st g textOut imagesOut).1.step = AppStep.research ∧
      Ev.alert t.errorKey ∈ (startProcess t st g textOut imagesOut).2) ∧
    (∀ td e, textOut = Except.ok td → imagesOut = Except.error e →
      (startProcess t st g textOut imagesOut).1.step = AppStep.research ∧
      Ev.alert t.errorKey ∈ (startProcess t st g textOut imagesOut).2) := by
  refine ⟨?_, ?_, ?_, ?_⟩
  · cases textOut <;> cases imagesOut <;> simp [startProcess, htopic, hauthor]
  · cases textOut <;> cases imagesOut <;> simp [startProcess, htopic, hauthor]
  · rintro e rfl
    simp [startProcess, htopic, hauthor]
  · rintro td e rfl rfl
    simp [startProcess, htopic, hauthor]

/-- C6 witness: a rejecting text-generation step on valid inputs leaves
the stage at Research, clears the loading flag and surfaces the localized
error alert. -/
theorem c6_error_leaves_stage_witness :
    (startProcess sampleTrans sampleState sampleGrounding
      (Except.error errOther) (Except.ok sampleImgs)).1.isLoading = false ∧
    (startProcess sampleTrans sampleState sampleGrounding
      (Except.error errOther) (Except.ok sampleImgs)).1.step = AppStep.research ∧
    Ev.alert sampleTrans.errorKey ∈
      (startProcess sampleTrans sampleState sampleGrounding
        (Except.error errOther) (Except.ok sampleImgs)).2 := by
  have h := c6_error_leaves_stage sampleTrans sampleState sampleGrounding
    (Except.error errOther) (Except.ok sampleImgs)
    (by simp [sampleState, sampleMeta]) (by simp [sampleState, sampleMeta])
  exact ⟨h.1, (h.2.2.1 errOther rfl).1, (h.2.2.1 errOther rfl).2⟩

/-- C9: For every call to `handleEditImage`: if there is no current cover
image (in the code's own JavaScript-truthiness sense) or the edit
instruction is empty, the call is a strict no-op; otherwise, on success
the selected cover image is replaced with the edited result and the
instruction field is cleared, and on failure both are left unchanged; in
every case the stage, the generated-images list, the metadata (and the
grounding data, video URL and video prompt) are not modified. -/
theorem c9_handle_edit_image (t : Translations) (st : AppState)
    (editOut : Except RemoteErr String) :
    ((jsTruthyOpt st.coverImage = false ∨ st.editPrompt = "") →
      handleEditImage t st editOut = (st, [])) ∧
    (jsTruthyOpt st.coverImage = true → st.editPrompt ≠ "" →
      ((handleEditImage t st editOut).1.step = st.step ∧
       (handleEditImage t st editOut).1.generatedImages = st.generatedImages ∧
       (handleEditImage t st editOut).1.metadata = st.metadata ∧
       (handleEditImage t st editOut).1.groundingData = st.groundingData ∧
       (handleEditImage t st editOut).1.videoUrl = st.videoUrl ∧
       (handleEditImage t st editOut).1.videoPrompt = st.videoPrompt) ∧
      (∀ img, editOut = Except.ok img →
        (handleEditImage t st editOut).1.coverImage = some img ∧
        (handleEditImage t st editOut).1.editPrompt = "") ∧
      (∀ e, editOut = Except.error e →
        (handleEditImage t st editOut).1.coverImage = st.coverImage ∧
        (handleEditImage t st editOut).1.editPrompt = st.editPrompt)) := by
  constructor
  · intro h
    rcases h with h | h <;> simp [handleEditImage, h]
  · intro h1 h2
    refine ⟨?_, ?_, ?_⟩
    · cases editOut <;> simp [handleEditImage, h1, h2]
    · rintro img rfl
      simp [handleEditImage, h1, h2]
    · rintro e rfl
      simp [handleEditImage, h1, h2]

/-- C9 witness: with a selected image and a pending instruction, a
successful edit replaces the image and clears the instruction while
leaving stage, image list and metadata unchanged; with no selected image,
the call is a no-op. -/
theorem c9_handle_edit_image_witness :
    (handleEditImage sampleTrans sampleStateEdit
      (Except.ok "data:image/png;base64,N")).1.coverImage =
        some "data:image/png;base64,N" ∧
    (handleEditImage sampleTrans sampleStateEdit
      (Except.ok "data:image/png;base64,N")).1.editPrompt = "" ∧
    (handleEditImage sampleTrans sampleStateEdit
      (Except.ok "data:image/png;base64,N")).1.metadata =
        sampleStateEdit.metadata ∧
    handleEditImage sampleTrans sampleState (Except.ok "x") =
      (sampleState, []) := by
  have h := c9_handle_edit_image sampleTrans sampleStateEdit
    (Except.ok "data:image/png;base64,N")
  have hyes := h.2 (by simp [sampleStateEdit, jsTruthyOpt])
    (by simp [sampleStateEdit])
  have hnoop := (c9_handle_edit_image sampleTrans sampleState
    (Except.ok "x")).1 (Or.inl (by simp [sampleState, jsTruthyOpt]))
  exact ⟨(hyes.2.1 _ rfl).1, (hyes.2.1 _ rfl).2, hyes.1.2.2.1, hnoop⟩
